import Mathlib

/-!
# Verification of the cluster-turndown core (turndown manager and flattener)

Shallow embedding of `turndown/turndown.go` (the `KubernetesTurndownManager`)
and of the flattener file (`Flattener` and its per-workload mutations), with
theorems checking the specification's claims about them.

Go `map[string]string` values are modelled as association lists
(`Ann`), with a `nil` map modelled as `Option Ann = none`.  Go pointer
fields (`*int32`, `*bool`, `*intstr.IntOrString`, `*RollingUpdateDeployment`)
are modelled as `Option`.  Functions that can hit a nil-pointer dereference
(a Go panic) return `Option`.
-/

namespace ClusterTurndown

/-- Go `map[string]string` (non-nil case), as an association list; a nil map
is `Option Ann = none`.  Lookup takes the first match, insert replaces the
first match or appends, delete removes every match: on the duplicate-free
lists a Go map can actually produce these are exactly the map operations. -/
abbrev Ann := List (String × String)

/-- Go `v, ok := m[k]` on a non-nil map. -/
def annGet? : Ann → String → Option String
  | [], _ => none
  | p :: m, k => if p.1 = k then some p.2 else annGet? m k

/-- Go `m[k]` (comma-ok omitted): zero value `""` when the key is absent. -/
def annGet (m : Ann) (k : String) : String :=
  (annGet? m k).getD ""

/-- Go `m[k] = v` on a non-nil map. -/
def annSet : Ann → String → String → Ann
  | [], k, v => [(k, v)]
  | p :: m, k, v => if p.1 = k then (k, v) :: m else p :: annSet m k v

/-- Go `delete(m, k)` on a non-nil map. -/
def annDel : Ann → String → Ann
  | [], _ => []
  | p :: m, k => if p.1 = k then annDel m k else p :: annDel m k

/-- Read through a possibly-nil map: Go reads on a nil map yield not-ok. -/
def mGet? (m : Option Ann) (k : String) : Option String :=
  match m with
  | none => none
  | some mm => annGet? mm k

/-- Read with zero-value default through a possibly-nil map. -/
def mGet (m : Option Ann) (k : String) : String :=
  (mGet? m k).getD ""

/-- The Go sources write `if m == nil { m = map[string]string{k: v} } else { m[k] = v }`;
this helper is that exact pattern. -/
def mSet (m : Option Ann) (k v : String) : Option Ann :=
  match m with
  | none => some [(k, v)]
  | some mm => some (annSet mm k v)

/-! ## Annotation keys

Modelled from the spec: the five annotation-key constants
(`ClusterAutoScalerSafeEvict`, `KubecostTurnDownSafeEvictFlag`,
`KubecostTurnDownReplicas`, `KubecostTurnDownRollout`,
`KubecostTurnDownJobSuspend`) are referenced by the flattener file but
defined elsewhere in the repository.  Per the spec (§6) the capture keys are
namespaced under a system-reserved prefix and the eviction marker is the
well-known autoscaler key; only their distinctness is used below. -/

def ClusterAutoScalerSafeEvict : String :=
  "cluster-autoscaler.kubernetes.io/safe-to-evict"

def KubecostTurnDownSafeEvictFlag : String :=
  "kubecost.kubernetes.io/turn-down-safe-evict"

def KubecostTurnDownReplicas : String :=
  "kubecost.kubernetes.io/turn-down-replicas"

def KubecostTurnDownRollout : String :=
  "kubecost.kubernetes.io/turn-down-rollout"

def KubecostTurnDownJobSuspend : String :=
  "kubecost.kubernetes.io/job-suspend"

/-! ## intstr.IntOrString -/

/-- Embeds `intstr.IntOrString`: a tagged union; `Type` selects which value is
active, so it is a sum type here. -/
inductive IntOrString where
  | int (v : Int)
  | str (s : String)
deriving DecidableEq, Repr

/-- Embeds `IntOrString.String()`: the string value, or `strconv.Itoa` of the int. -/
def iosString : IntOrString → String
  | .int v => toString v
  | .str s => s

/-- Base-10 digit run for `strconv.ParseInt`: every character must be a
digit ('0'..'9', code points 48-57). -/
def goDigits? : List Char → Nat → Option Nat
  | [], acc => some acc
  | c :: cs, acc =>
    if 48 ≤ c.toNat ∧ c.toNat ≤ 57 then goDigits? cs (acc * 10 + (c.toNat - 48))
    else none

/-- The sign-and-digits core of `strconv.ParseInt(s, 10, _)`: an optional
leading '+' or '-', then one or more digits; anything else is an error. -/
def goParseIntCore : List Char → Option Int
  | [] => none
  | c :: rest =>
    if c = '-' then
      match rest with
      | [] => none
      | _ :: _ => (goDigits? rest 0).map (fun n => -(n : Int))
    else if c = '+' then
      match rest with
      | [] => none
      | _ :: _ => (goDigits? rest 0).map (fun n => (n : Int))
    else (goDigits? (c :: rest) 0).map (fun n => (n : Int))

/-- Embeds `strconv.Atoi` (i.e. `ParseInt(s, 10, 0)`, 64-bit range). -/
def goAtoi (s : String) : Option Int :=
  match goParseIntCore s.data with
  | some v =>
    if -9223372036854775808 ≤ v ∧ v < 9223372036854775808 then some v else none
  | none => none

/-- Embeds `intstr.Parse`: integer if `Atoi` succeeds, else the raw string. -/
def intstrParse (s : String) : IntOrString :=
  match goAtoi s with
  | some v => .int v
  | none => .str s

/-- Embeds `strconv.ParseInt(s, 10, 32)`. -/
def goParseInt32 (s : String) : Option Int :=
  match goParseIntCore s.data with
  | some v => if -2147483648 ≤ v ∧ v < 2147483648 then some v else none
  | none => none

/-- Embeds `strconv.ParseBool`. -/
def goParseBool (s : String) : Option Bool :=
  if s = "1" ∨ s = "t" ∨ s = "T" ∨ s = "TRUE" ∨ s = "true" ∨ s = "True" then
    some true
  else if s = "0" ∨ s = "f" ∨ s = "F" ∨ s = "FALSE" ∨ s = "false" ∨ s = "False" then
    some false
  else none

/-- Embeds `fmt.Sprintf("%t", b)`. -/
def goBoolString (b : Bool) : String := if b then "true" else "false"

/-! ## Workload model

Only the fields the flattener touches are modelled:
`appsv1.Deployment`: `ObjectMeta.Annotations`, `Spec.Template.Annotations`,
`Spec.Replicas` (`*int32`), `Spec.Strategy.RollingUpdate`
(`*RollingUpdateDeployment`, of which only `MaxUnavailable : *IntOrString`). -/

structure Deployment where
  name : String
  ns : String
  annotations : Option Ann
  templateAnnotations : Option Ann
  replicas : Option Int
  rollingUpdate : Option (Option IntOrString)
deriving DecidableEq, Repr

/-- Embeds `Flattener.setSafeEvict` (flattener file, lines 645-674): records the prior
pod-template safe-evict value (when non-empty) and sets the marker to "true";
always returns true. -/
def setSafeEvict (d : Deployment) : Deployment × Bool :=
  let previousValue := mGet d.templateAnnotations ClusterAutoScalerSafeEvict
  let d1 := { d with
    templateAnnotations := mSet d.templateAnnotations ClusterAutoScalerSafeEvict "true" }
  if previousValue = "" then (d1, true)
  else
    ({ d1 with
        annotations := mSet d1.annotations KubecostTurnDownSafeEvictFlag previousValue },
     true)

/-- Embeds `Flattener.zeroOutReplicas` (lines 678-697).  The guard dereferences
`*deployment.Spec.Replicas` unconditionally, so a nil replicas pointer is a
panic, modelled as `none`. -/
def zeroOutReplicas (d : Deployment) : Option (Deployment × Bool) :=
  match d.replicas with
  | none => none
  | some r =>
    if r = 0 then some (d, false)
    else
      let d1 := { d with replicas := some 0 }
      some ({ d1 with
          annotations := mSet d1.annotations KubecostTurnDownReplicas (toString r) },
        true)

/-- Embeds `Flattener.zeroOutRollingUpdate` (lines 699-731).  The local
`maxUnavailable` is a copy of the `MaxUnavailable` pointer; in the non-nil
branch the pointee is mutated (`Type = Int`, `IntVal = 1`) before
`maxUnavailable.String()` is evaluated for the annotation, so the annotation
receives the string of the already-mutated value. -/
def zeroOutRollingUpdate (d : Deployment) : Deployment × Bool :=
  match d.rollingUpdate with
  | none => (d, false)
  | some maxUnavailable =>
    let d1 := { d with rollingUpdate := some (some (.int 1)) }
    let toWrite : String :=
      match maxUnavailable with
      | none => ""
      | some _ => iosString (.int 1)
    ({ d1 with annotations := mSet d1.annotations KubecostTurnDownRollout toWrite },
     true)

/-- Embeds `Flattener.FlattenDeployment` (lines 396-427).  Returns the live object
after the call (the patch applies exactly the in-memory mutations) and
whether a patch was issued; `none` models the nil-replicas panic. -/
def flattenDeployment (d0 : Deployment) : Option (Deployment × Bool) :=
  let ev := if d0.ns = "kube-system" then setSafeEvict d0 else (d0, false)
  match zeroOutReplicas ev.1 with
  | none => none
  | some rp =>
    let ro := zeroOutRollingUpdate rp.1
    if ¬ev.2 ∧ ¬rp.2 ∧ ¬ro.2 then some (d0, false)
    else some (ro.1, true)

/-- Embeds `Flattener.resetSafeEvict` (lines 734-762). -/
def resetSafeEvict (d : Deployment) : Deployment × Bool :=
  match d.annotations with
  | none => (d, false)
  | some anns =>
    match annGet? anns KubecostTurnDownSafeEvictFlag with
    | none =>
      (match d.templateAnnotations with
       | none => (d, true)
       | some t =>
         ({ d with templateAnnotations := some (annDel t ClusterAutoScalerSafeEvict) },
          true))
    | some safeEvictEntry =>
      let d1 := { d with annotations := some (annDel anns KubecostTurnDownSafeEvictFlag) }
      ({ d1 with
          templateAnnotations :=
            mSet d1.templateAnnotations ClusterAutoScalerSafeEvict safeEvictEntry },
       true)

/-- Embeds `Flattener.resetReplicas` (lines 766-789). -/
def resetReplicas (d : Deployment) : Deployment × Bool :=
  match d.annotations with
  | none => (d, false)
  | some anns =>
    match annGet? anns KubecostTurnDownReplicas with
    | none => (d, false)
    | some replicasEntry =>
      match goParseInt32 replicasEntry with
      | none => (d, false)
      | some replicas =>
        let d1 := { d with annotations := some (annDel anns KubecostTurnDownReplicas) }
        ({ d1 with replicas := some replicas }, true)

/-- Embeds `Flattener.resetRollingUpdate` (lines 791-818): both strategy branches end
with `MaxUnavailable = &maxUnavailable`. -/
def resetRollingUpdate (d : Deployment) : Deployment × Bool :=
  match d.annotations with
  | none => (d, false)
  | some anns =>
    match annGet? anns KubecostTurnDownRollout with
    | none => (d, false)
    | some maxUnavailableEntry =>
      let maxUnavailable := intstrParse maxUnavailableEntry
      let d1 := { d with annotations := some (annDel anns KubecostTurnDownRollout) }
      ({ d1 with rollingUpdate := some (some maxUnavailable) }, true)

/-- Embeds `Flattener.ExpandDeployment` (lines 429-460). -/
def expandDeployment (d0 : Deployment) : Deployment × Bool :=
  let ev := if d0.ns = "kube-system" then resetSafeEvict d0 else (d0, false)
  let rp := resetReplicas ev.1
  let ro := resetRollingUpdate rp.1
  if ¬ev.2 ∧ ¬rp.2 ∧ ¬ro.2 then (d0, false)
  else (ro.1, true)

/-! ## DaemonSets -/

/-- Embeds `appsv1.DaemonSet`: only `Spec.Template.Annotations` is touched. -/
structure DaemonSet where
  name : String
  ns : String
  templateAnnotations : Option Ann
deriving DecidableEq, Repr

/-- Embeds `Flattener.FlattenDaemonSet` (lines 462-494): guarded — if the template
safe-evict annotation is already "true", return with no patch; otherwise set
it and patch.  The Bool is whether a patch call was issued. -/
def flattenDaemonSet (ds : DaemonSet) : DaemonSet × Bool :=
  if mGet? ds.templateAnnotations ClusterAutoScalerSafeEvict = some "true" then (ds, false)
  else
    ({ ds with
        templateAnnotations := mSet ds.templateAnnotations ClusterAutoScalerSafeEvict "true" },
     true)

/-- Embeds `Flattener.ExpandDaemonSet` (lines 496-519): returns early only on a nil
template-annotation map; otherwise deletes the key and calls Patch (possibly
with an empty diff). -/
def expandDaemonSet (ds : DaemonSet) : DaemonSet × Bool :=
  match ds.templateAnnotations with
  | none => (ds, false)
  | some t =>
    ({ ds with templateAnnotations := some (annDel t ClusterAutoScalerSafeEvict) }, true)

/-! ## CronJobs -/

/-- Embeds `v1beta1.CronJob`: `ObjectMeta.Annotations` and `Spec.Suspend : *bool`. -/
structure CronJob where
  name : String
  ns : String
  annotations : Option Ann
  suspend : Option Bool
deriving DecidableEq, Repr

/-- Embeds `Flattener.SuspendJob` (lines 521-558): unconditionally sets
`Suspend = &true`; captures the previous value only when the pointer was
non-nil; always calls Patch. -/
def suspendJob (j : CronJob) : CronJob × Bool :=
  let previousValue := j.suspend
  let j1 := { j with suspend := some true }
  let j2 :=
    match previousValue with
    | none => j1
    | some pv =>
      { j1 with annotations := mSet j1.annotations KubecostTurnDownJobSuspend (goBoolString pv) }
  (j2, true)

/-- Embeds `Flattener.ResumeJob` (lines 561-594): restores the captured boolean when
present (a ParseBool failure is returned as an error before any mutation,
modelled as `none`), else `Suspend = &false`; always calls Patch on the
non-error path. -/
def resumeJob (j : CronJob) : Option (CronJob × Bool) :=
  match mGet? j.annotations KubecostTurnDownJobSuspend with
  | none => some ({ j with suspend := some false }, true)
  | some suspendEntry =>
    match goParseBool suspendEntry with
    | none => none
    | some b =>
      let j1 :=
        { j with annotations := j.annotations.map (fun anns => annDel anns KubecostTurnDownJobSuspend) }
      some ({ j1 with suspend := some b }, true)

/-! ## Aggregate flattening and the deny-list

`turndown.go` (lines 19-21, 161, 272) declares
`KubecostFlattenerOmit` and passes it to `NewFlattener`; the flattener file's
`NewFlattener` (lines 313-322) takes only the client, and no function in the
flattener consults any name list: `FlattenDeployments` (lines 347-361) applies
`FlattenDeployment` to every listed deployment unconditionally. -/

def KubecostFlattenerOmit : List String :=
  ["kubecost-turndown", "kube-dns", "kube-dns-autoscaler"]

/-- Embeds `Flattener.FlattenDeployments` (lines 347-361): every deployment in the
cluster is flattened, with no deny-list filtering; a panic in any item
(`none`) crashes the whole pass. -/
def flattenDeployments (ds : List Deployment) : Option (List (Deployment × Bool)) :=
  ds.mapM flattenDeployment

/-! ## Turndown manager

`provider.NodePool` and `v1.Node` carry only what `ScaleDownCluster` /
`ScaleUpCluster` read; `provider.GetPoolID(node)` is modelled as the node's
`poolID` field.  Collaborator calls are modelled by a `Cluster` environment
giving each call's response, and the calls made are recorded as a `TdAction`
trace. -/

structure NodePool where
  name : String
  autoScaling : Bool
deriving DecidableEq, Repr

structure Node where
  name : String
  poolID : String
deriving DecidableEq, Repr

inductive TdAction where
  | flattenDeployments
  | flattenDaemonSets
  | suspendJobs
  | drain (node : String)
  | setNodePoolSizes (pools : List String) (size : Nat)
  | resetNodePoolSizes (pools : List String)
  | expandDeployments
  | expandDaemonSets
  | resumeJobs
deriving DecidableEq, Repr

inductive TdError where
  | listNodesFailed
  | getNodePoolsFailed
  | flattenFailed
  | suspendJobsFailed
  | setNodePoolSizesFailed
  | resetNodePoolSizesFailed
  | expandFailed
  | resumeJobsFailed
  | noNodePoolsToScaleUp
deriving DecidableEq, Repr

/-- Environment: responses of the Kubernetes client and the Provider.
`none` for a list call means the call returns an error; the Ok flags give
the outcome of the other fallible collaborator calls.  Per-item patch and
drain failures inside loops are only logged by the code, so they do not
appear here. -/
structure Cluster where
  nodes : Option (List Node)
  nodePools : Option (List NodePool)
  listDeploymentsOk : Bool
  listDaemonSetsOk : Bool
  listCronJobsOk : Bool
  setNodePoolSizesOk : Bool
  resetNodePoolSizesOk : Bool
deriving DecidableEq, Repr

/-- The manager's in-memory fields (`currentNode`, `autoScaling *bool`,
`nodePools []provider.NodePool`, nil slice as `none`). -/
structure ManagerState where
  currentNode : String
  autoScaling : Option Bool
  nodePools : Option (List NodePool)
deriving DecidableEq, Repr

/-- Embeds `KubernetesTurndownManager.IsScaledDown` (turndown.go lines 65-67):
`nodePools == nil || len(nodePools) == 0`. -/
def IsScaledDown (s : ManagerState) : Bool :=
  s.nodePools.isNone || (s.nodePools.getD []).length == 0

/-- Embeds `Flattener.Flatten` (flattener file lines 328-345): deployments, then
daemonsets, then cron jobs, aborting on the first listing error (per-item
failures are only logged). -/
def flattenerFlatten (c : Cluster) : List TdAction × Option TdError :=
  if ¬c.listDeploymentsOk then ([.flattenDeployments], some .flattenFailed)
  else if ¬c.listDaemonSetsOk then
    ([.flattenDeployments, .flattenDaemonSets], some .flattenFailed)
  else
    ([.flattenDeployments, .flattenDaemonSets, .suspendJobs],
     if ¬c.listCronJobsOk then some .flattenFailed else none)

/-- Embeds `Flattener.SuspendJobs` at the aggregate level (lines 379-393). -/
def flattenerSuspendJobs (c : Cluster) : List TdAction × Option TdError :=
  ([.suspendJobs], if ¬c.listCronJobsOk then some .suspendJobsFailed else none)

/-- Modelled from the spec: `Flattener.Expand` is called by `ScaleUpCluster`
but its definition is not in src; the spec (§4.2) says the aggregate Expand
iterates every workload of all three kinds, mirroring Flatten's order. -/
def flattenerExpand (c : Cluster) : List TdAction × Option TdError :=
  if ¬c.listDeploymentsOk then ([.expandDeployments], some .expandFailed)
  else if ¬c.listDaemonSetsOk then
    ([.expandDeployments, .expandDaemonSets], some .expandFailed)
  else
    ([.expandDeployments, .expandDaemonSets, .resumeJobs],
     if ¬c.listCronJobsOk then some .expandFailed else none)

/-- Embeds `Flattener.ResumeJobs` at the aggregate level (lines 628-642). -/
def flattenerResumeJobs (c : Cluster) : List TdAction × Option TdError :=
  ([.resumeJobs], if ¬c.listCronJobsOk then some .resumeJobsFailed else none)

/-- The `pools` map built in `ScaleDownCluster` step 2: `pools[np.Name()] = np`
over the listed pools, so a later pool with the same name overwrites an
earlier one. -/
def lookupPool (pools : List NodePool) (id : String) : Option NodePool :=
  pools.foldl (fun acc np => if np.name = id then some np else acc) none

/-- One iteration of the drain loop (`ScaleDownCluster` step 3, lines
176-203): the accumulator is `(currentNodePoolID, drain calls so far)`. -/
def drainStep (current : String) (pools : List NodePool)
    (acc : String × List TdAction) (n : Node) : String × List TdAction :=
  if n.name = current then (n.poolID, acc.2)
  else
    match lookupPool pools n.poolID with
    | none => acc
    | some pool =>
      if pool.autoScaling then acc
      else (acc.1, acc.2 ++ [.drain n.name])

/-- The full drain loop of `ScaleDownCluster` step 3. -/
def drainLoop (current : String) (pools : List NodePool) (nodes : List Node) :
    String × List TdAction :=
  nodes.foldl (drainStep current pools) ("", [])

/-- Embeds `KubernetesTurndownManager.ScaleDownCluster` (turndown.go lines 136-227).
Returns the final manager state, the trace of collaborator calls, and the
returned error if any. -/
def scaleDownCluster (c : Cluster) (s : ManagerState) :
    ManagerState × List TdAction × Option TdError :=
  match c.nodes with
  | none => (s, [], some .listNodesFailed)
  | some nodes =>
    match c.nodePools with
    | none => (s, [], some .getNodePoolsFailed)
    | some nodePools =>
      let isAutoScalingCluster := nodePools.any (fun np => np.autoScaling)
      let wl :=
        if isAutoScalingCluster then flattenerFlatten c
        else flattenerSuspendJobs c
      match wl.2 with
      | some e => (s, wl.1, some e)
      | none =>
        let dl := drainLoop s.currentNode nodePools nodes
        let targetPools := nodePools.filter
          (fun np => !(np.name == dl.1 || np.autoScaling))
        let s1 := { s with
          nodePools := some targetPools,
          autoScaling := some isAutoScalingCluster }
        let actions :=
          wl.1 ++ dl.2 ++ [.setNodePoolSizes (targetPools.map (fun np => np.name)) 0]
        if ¬c.setNodePoolSizesOk then (s1, actions, some .setNodePoolSizesFailed)
        else (s1, actions, none)

/-- Embeds `KubernetesTurndownManager.loadNodePools` (lines 229-249): `autoScaling`
is set to `&true` whenever an autoscaling pool is seen (never set to false
here); the non-autoscaling pools are collected into a slice that stays nil
when none are appended. -/
def loadNodePools (c : Cluster) (s : ManagerState) : ManagerState × Option TdError :=
  match c.nodePools with
  | none => (s, some .getNodePoolsFailed)
  | some pools =>
    let s1 := pools.foldl
      (fun st pool => if pool.autoScaling then { st with autoScaling := some true } else st)
      s
    let fixed := pools.filter (fun p => !p.autoScaling)
    ({ s1 with nodePools := if fixed.isEmpty then none else some fixed }, none)

/-- The reload block at the head of `ScaleUpCluster` (lines 252-263): when no
node pools were recorded by a downscale, try `loadNodePools`, and fail with
the "Failed to locate any node pools to scale up." error if the record is
still empty. -/
def scaleUpReload (c : Cluster) (s : ManagerState) : ManagerState × Option TdError :=
  if (s.nodePools.getD []).isEmpty then
    match loadNodePools c s with
    | (s1, some e) => (s1, some e)
    | (s1, none) =>
      if (s1.nodePools.getD []).isEmpty then (s1, some .noNodePoolsToScaleUp)
      else (s1, none)
  else (s, none)

/-- Embeds `KubernetesTurndownManager.ScaleUpCluster` (lines 251-291). -/
def scaleUpCluster (c : Cluster) (s : ManagerState) :
    ManagerState × List TdAction × Option TdError :=
  match scaleUpReload c s with
  | (s1, some e) => (s1, [], some e)
  | (s1, none) =>
    let poolNames := (s1.nodePools.getD []).map (fun np => np.name)
    if ¬c.resetNodePoolSizesOk then
      (s1, [.resetNodePoolSizes poolNames], some .resetNodePoolSizesFailed)
    else
      let ex :=
        if s1.autoScaling = some true then flattenerExpand c
        else flattenerResumeJobs c
      match ex.2 with
      | some e => (s1, .resetNodePoolSizes poolNames :: ex.1, some e)
      | none =>
        ({ s1 with nodePools := none, autoScaling := none },
         .resetNodePoolSizes poolNames :: ex.1, none)

/-! ## Concrete instances used by claim counterexamples and witnesses -/

/-- kube-system deployment with a nil annotation map and nothing to capture:
flatten writes only the eviction marker, so expand finds a nil annotation
map and cannot undo it. -/
def claim1DeployA : Deployment :=
  { name := "coredns", ns := "kube-system", annotations := none,
    templateAnnotations := none, replicas := some 0, rollingUpdate := none }

/-- Deployment with a rolling-update strategy whose max-unavailable is 5. -/
def claim1DeployB : Deployment :=
  { name := "web", ns := "default", annotations := none,
    templateAnnotations := none, replicas := some 0,
    rollingUpdate := some (some (.int 5)) }

/-- DaemonSet whose eviction marker is pre-set to "false". -/
def claim1DaemonSet : DaemonSet :=
  { name := "agent", ns := "default",
    templateAnnotations := some [(ClusterAutoScalerSafeEvict, "false")] }

def claim1WDeploy : Deployment :=
  { name := "web", ns := "default", annotations := none,
    templateAnnotations := none, replicas := some 3, rollingUpdate := none }

def claim1WDaemonSet : DaemonSet :=
  { name := "agent", ns := "default", templateAnnotations := none }

def claim1WJob : CronJob :=
  { name := "backup", ns := "default", annotations := none, suspend := some false }

def claim1WJobNil : CronJob :=
  { name := "sync", ns := "default", annotations := none, suspend := none }

def claim2Deploy : Deployment :=
  { name := "api", ns := "default", annotations := none,
    templateAnnotations := none, replicas := some 3,
    rollingUpdate := some (some (.int 5)) }

def claim3Job : CronJob :=
  { name := "report", ns := "default", annotations := none, suspend := some false }

def claim3Deploy : Deployment :=
  { name := "dns", ns := "kube-system", annotations := none,
    templateAnnotations := none, replicas := some 0, rollingUpdate := none }

/-- State of `claim3Deploy` after one FlattenDeployment. -/
def claim3Flat1 : Deployment :=
  { name := "dns", ns := "kube-system", annotations := none,
    templateAnnotations := some [(ClusterAutoScalerSafeEvict, "true")],
    replicas := some 0, rollingUpdate := none }

/-- State of `claim3Flat1` after a second FlattenDeployment: the pre-existing "true"
marker is now captured as if it were a user value. -/
def claim3Flat2 : Deployment :=
  { name := "dns", ns := "kube-system",
    annotations := some [(KubecostTurnDownSafeEvictFlag, "true")],
    templateAnnotations := some [(ClusterAutoScalerSafeEvict, "true")],
    replicas := some 0, rollingUpdate := none }

def claim3WDaemonSet : DaemonSet :=
  { name := "proxy", ns := "default", templateAnnotations := none }

def claim3WDeploy : Deployment :=
  { name := "web", ns := "default", annotations := none,
    templateAnnotations := none, replicas := some 2, rollingUpdate := none }

def claim3WFlat : Deployment :=
  { name := "web", ns := "default",
    annotations := some [(KubecostTurnDownReplicas, "2")],
    templateAnnotations := none, replicas := some 0, rollingUpdate := none }

def claim3WNilAnnDeploy : Deployment :=
  { name := "cache", ns := "default", annotations := none,
    templateAnnotations := none, replicas := some 1, rollingUpdate := none }

def claim4Cluster : Cluster :=
  { nodes := some [{ name := "anchor", poolID := "pool-a" },
      { name := "n2", poolID := "pool-b" }],
    nodePools := some [{ name := "pool-a", autoScaling := false },
      { name := "pool-b", autoScaling := false }],
    listDeploymentsOk := true, listDaemonSetsOk := true, listCronJobsOk := true,
    setNodePoolSizesOk := true, resetNodePoolSizesOk := true }

def claim4State : ManagerState :=
  { currentNode := "anchor", autoScaling := none, nodePools := none }

def claim5Deploy : Deployment :=
  { name := "kube-dns", ns := "kube-system", annotations := none,
    templateAnnotations := none, replicas := some 2, rollingUpdate := none }

def claim5Flattened : Deployment :=
  { name := "kube-dns", ns := "kube-system",
    annotations := some [(KubecostTurnDownReplicas, "2")],
    templateAnnotations := some [(ClusterAutoScalerSafeEvict, "true")],
    replicas := some 0, rollingUpdate := none }

def claim6WCluster : Cluster :=
  { nodes := some [{ name := "anchor", poolID := "pool-a" },
      { name := "n2", poolID := "pool-b" }],
    nodePools := some [{ name := "pool-a", autoScaling := true },
      { name := "pool-b", autoScaling := false }],
    listDeploymentsOk := true, listDaemonSetsOk := true, listCronJobsOk := true,
    setNodePoolSizesOk := true, resetNodePoolSizesOk := true }

def claim6WState : ManagerState :=
  { currentNode := "anchor", autoScaling := none, nodePools := none }

def claim7WCluster : Cluster :=
  { nodes := some [], nodePools := some [{ name := "pool-a", autoScaling := true }],
    listDeploymentsOk := true, listDaemonSetsOk := true, listCronJobsOk := true,
    setNodePoolSizesOk := true, resetNodePoolSizesOk := true }

def claim7WState : ManagerState :=
  { currentNode := "anchor", autoScaling := none, nodePools := none }

def claim8WCluster : Cluster :=
  { nodes := some [{ name := "anchor", poolID := "pool-a" },
      { name := "n2", poolID := "pool-b" },
      { name := "n3", poolID := "pool-c" }],
    nodePools := some [{ name := "pool-a", autoScaling := false },
      { name := "pool-b", autoScaling := false },
      { name := "pool-c", autoScaling := true }],
    listDeploymentsOk := true, listDaemonSetsOk := true, listCronJobsOk := true,
    setNodePoolSizesOk := true, resetNodePoolSizesOk := true }

def claim8WState : ManagerState :=
  { currentNode := "anchor", autoScaling := none, nodePools := none }

def claim10WCluster : Cluster :=
  { nodes := some [{ name := "anchor", poolID := "pool-a" },
      { name := "n2", poolID := "pool-b" }],
    nodePools := some [{ name := "pool-a", autoScaling := false },
      { name := "pool-b", autoScaling := false }],
    listDeploymentsOk := true, listDaemonSetsOk := true, listCronJobsOk := true,
    setNodePoolSizesOk := false, resetNodePoolSizesOk := true }

def claim10WState : ManagerState :=
  { currentNode := "anchor", autoScaling := none, nodePools := none }

/-! ## Map lemmas -/

theorem annGet?_annSet_self (m : Ann) (k v : String) :
    annGet? (annSet m k v) k = some v := by
  induction m with
  | nil => simp [annSet, annGet?]
  | cons p m ih =>
    by_cases h : p.1 = k
    · simp [annSet, annGet?, h]
    · simp [annSet, annGet?, h, ih]

theorem annGet?_annSet_ne (m : Ann) (k1 k v : String) (h : k1 ≠ k) :
    annGet? (annSet m k1 v) k = annGet? m k := by
  induction m with
  | nil => simp [annSet, annGet?, h]
  | cons p m ih =>
    by_cases hp : p.1 = k1
    · simp [annSet, annGet?, hp, h, hp ▸ h]
    · simp only [annSet, hp, if_false]
      by_cases hk : p.1 = k
      · simp [annGet?, hk]
      · simp [annGet?, hk, ih]

theorem annGet?_annDel_self (m : Ann) (k : String) :
    annGet? (annDel m k) k = none := by
  induction m with
  | nil => simp [annDel, annGet?]
  | cons p m ih =>
    by_cases h : p.1 = k
    · simp [annDel, h, ih]
    · simp [annDel, annGet?, h, ih]

theorem annGet?_annDel_ne (m : Ann) (k1 k : String) (h : k1 ≠ k) :
    annGet? (annDel m k1) k = annGet? m k := by
  induction m with
  | nil => simp [annDel]
  | cons p m ih =>
    by_cases hp : p.1 = k1
    · simp [annDel, annGet?, hp, h, hp ▸ h, ih]
    · by_cases hk : p.1 = k
      · simp [annDel, annGet?, hp, hk, Ne.symm h]
      · simp [annDel, annGet?, hp, hk, ih]

theorem annDel_annDel (m : Ann) (k : String) :
    annDel (annDel m k) k = annDel m k := by
  induction m with
  | nil => simp [annDel]
  | cons p m ih =>
    by_cases h : p.1 = k
    · simp [annDel, h, ih]
    · simp [annDel, h, ih]

theorem mGet?_mSet_self (m : Option Ann) (k v : String) :
    mGet? (mSet m k v) k = some v := by
  cases m with
  | none => simp [mSet, mGet?, annGet?]
  | some mm => simp [mSet, mGet?, annGet?_annSet_self]

theorem mGet?_mSet_ne (m : Option Ann) (k1 k v : String) (h : k1 ≠ k) :
    mGet? (mSet m k1 v) k = mGet? m k := by
  cases m with
  | none => simp [mSet, mGet?, annGet?, h]
  | some mm => simp [mSet, mGet?, annGet?_annSet_ne _ _ _ _ h]

/-! ## Distinctness of the annotation keys -/

theorem kSafeEvict_ne_kReplicas :
    KubecostTurnDownSafeEvictFlag ≠ KubecostTurnDownReplicas := by decide

theorem kSafeEvict_ne_kRollout :
    KubecostTurnDownSafeEvictFlag ≠ KubecostTurnDownRollout := by decide

theorem kReplicas_ne_kRollout :
    KubecostTurnDownReplicas ≠ KubecostTurnDownRollout := by decide

/-! ## Field-preservation lemmas for the deployment sub-mutations -/

theorem setSafeEvict_replicas (d : Deployment) :
    (setSafeEvict d).1.replicas = d.replicas := by
  simp only [setSafeEvict]
  split <;> rfl

theorem setSafeEvict_rollingUpdate (d : Deployment) :
    (setSafeEvict d).1.rollingUpdate = d.rollingUpdate := by
  simp only [setSafeEvict]
  split <;> rfl

theorem setSafeEvict_annotations_ne (d : Deployment) (k : String)
    (h : KubecostTurnDownSafeEvictFlag ≠ k) :
    mGet? (setSafeEvict d).1.annotations k = mGet? d.annotations k := by
  simp only [setSafeEvict]
  split
  · rfl
  · simp [mGet?_mSet_ne _ _ _ _ h]

theorem zeroOutRollingUpdate_replicas (d : Deployment) :
    (zeroOutRollingUpdate d).1.replicas = d.replicas := by
  simp only [zeroOutRollingUpdate]
  split <;> rfl

theorem zeroOutRollingUpdate_annotations_ne (d : Deployment) (k : String)
    (h : KubecostTurnDownRollout ≠ k) :
    mGet? (zeroOutRollingUpdate d).1.annotations k = mGet? d.annotations k := by
  simp only [zeroOutRollingUpdate]
  split
  · rfl
  · simp [mGet?_mSet_ne _ _ _ _ h]

theorem resetSafeEvict_replicas (d : Deployment) :
    (resetSafeEvict d).1.replicas = d.replicas := by
  simp only [resetSafeEvict]
  split
  · rfl
  · split
    · split <;> rfl
    · rfl

theorem resetSafeEvict_annotations_ne (d : Deployment) (k : String)
    (h : KubecostTurnDownSafeEvictFlag ≠ k) :
    mGet? (resetSafeEvict d).1.annotations k = mGet? d.annotations k := by
  simp only [resetSafeEvict]
  split
  · rfl
  · rename_i anns hanns
    split
    · split <;> simp [hanns]
    · simp [hanns, mGet?, annGet?_annDel_ne _ _ _ h]

theorem resetRollingUpdate_replicas (d : Deployment) :
    (resetRollingUpdate d).1.replicas = d.replicas := by
  simp only [resetRollingUpdate]
  split
  · rfl
  · split
    · rfl
    · rfl

/-! ## Branch characterizations of the flatten/expand sub-mutations -/

theorem setSafeEvict_snd (d : Deployment) : (setSafeEvict d).2 = true := by
  simp only [setSafeEvict]
  split <;> rfl

theorem zeroOutReplicas_zero (d : Deployment) (h : d.replicas = some 0) :
    zeroOutReplicas d = some (d, false) := by
  simp [zeroOutReplicas, h]

theorem zeroOutReplicas_pos (d : Deployment) (r : Int) (h : d.replicas = some r)
    (hr : r ≠ 0) :
    zeroOutReplicas d =
      some
        ({ d with
            replicas := some 0,
            annotations := mSet d.annotations KubecostTurnDownReplicas (toString r) },
          true) := by
  simp [zeroOutReplicas, h, hr]

theorem zeroOutRollingUpdate_none (d : Deployment) (h : d.rollingUpdate = none) :
    zeroOutRollingUpdate d = (d, false) := by
  simp [zeroOutRollingUpdate, h]

theorem resetSafeEvict_nilAnn (d : Deployment) (h : d.annotations = none) :
    resetSafeEvict d = (d, false) := by
  simp [resetSafeEvict, h]

theorem resetReplicas_none (d : Deployment)
    (h : mGet? d.annotations KubecostTurnDownReplicas = none) :
    resetReplicas d = (d, false) := by
  cases hd : d.annotations with
  | none => simp [resetReplicas, hd]
  | some anns =>
    rw [hd] at h
    simp only [mGet?] at h
    simp [resetReplicas, hd, h]

theorem resetReplicas_some (d : Deployment) (anns : Ann) (s : String) (r : Int)
    (hd : d.annotations = some anns)
    (h : annGet? anns KubecostTurnDownReplicas = some s)
    (hp : goParseInt32 s = some r) :
    resetReplicas d =
      ({ d with
          annotations := some (annDel anns KubecostTurnDownReplicas),
          replicas := some r },
        true) := by
  simp [resetReplicas, hd, h, hp]

theorem resetReplicas_cases (d : Deployment) :
    resetReplicas d = (d, false) ∨ (resetReplicas d).2 = true := by
  simp only [resetReplicas]
  split
  · exact Or.inl rfl
  · split
    · exact Or.inl rfl
    · split
      · exact Or.inl rfl
      · exact Or.inr rfl

theorem resetRollingUpdate_none (d : Deployment)
    (h : mGet? d.annotations KubecostTurnDownRollout = none) :
    resetRollingUpdate d = (d, false) := by
  cases hd : d.annotations with
  | none => simp [resetRollingUpdate, hd]
  | some anns =>
    rw [hd] at h
    simp only [mGet?] at h
    simp [resetRollingUpdate, hd, h]

/-! ## Replica-count behaviour of ExpandDeployment -/

theorem expandStage1_replicas (d : Deployment) :
    (if d.ns = "kube-system" then resetSafeEvict d else (d, false)).1.replicas
      = d.replicas := by
  split
  · exact resetSafeEvict_replicas d
  · rfl

theorem expandStage1_annotations_ne (d : Deployment) (k : String)
    (h : KubecostTurnDownSafeEvictFlag ≠ k) :
    mGet? (if d.ns = "kube-system" then resetSafeEvict d else (d, false)).1.annotations k
      = mGet? d.annotations k := by
  split
  · exact resetSafeEvict_annotations_ne d k h
  · rfl

/-- The replica count after ExpandDeployment is whatever `resetReplicas`
computed on the stage-1 result (the safe-evict reset never touches replicas,
nor does the rollout reset). -/
theorem expandDeployment_replicas_eq (d : Deployment) :
    (expandDeployment d).1.replicas =
      (resetReplicas (if d.ns = "kube-system" then resetSafeEvict d else (d, false)).1).1.replicas := by
  simp only [expandDeployment]
  generalize hev : (if d.ns = "kube-system" then resetSafeEvict d else (d, false)) = ev
  have hevrep : ev.1.replicas = d.replicas := by
    rw [← hev]
    exact expandStage1_replicas d
  rcases resetReplicas_cases ev.1 with hc | hc
  · rw [hc]
    split
    · exact hevrep.symm
    · rw [resetRollingUpdate_replicas]
  · split
    · rename_i hcond
      exact absurd hc hcond.2.1
    · rw [resetRollingUpdate_replicas]

/-- When no replica-capture annotation is present, ExpandDeployment leaves the
replica count alone. -/
theorem expandDeployment_replicas_of_none (d : Deployment)
    (h : mGet? d.annotations KubecostTurnDownReplicas = none) :
    (expandDeployment d).1.replicas = d.replicas := by
  have h1 : mGet? (if d.ns = "kube-system" then resetSafeEvict d else (d, false)).1.annotations
      KubecostTurnDownReplicas = none := by
    rw [expandStage1_annotations_ne d _ kSafeEvict_ne_kReplicas]
    exact h
  rw [expandDeployment_replicas_eq, resetReplicas_none _ h1]
  exact expandStage1_replicas d

/-- When the replica-capture annotation parses, ExpandDeployment restores it. -/
theorem expandDeployment_replicas_of_capture (d : Deployment) (s : String) (r : Int)
    (h : mGet? d.annotations KubecostTurnDownReplicas = some s)
    (hp : goParseInt32 s = some r) :
    (expandDeployment d).1.replicas = some r := by
  have h1 : mGet? (if d.ns = "kube-system" then resetSafeEvict d else (d, false)).1.annotations
      KubecostTurnDownReplicas = some s := by
    rw [expandStage1_annotations_ne d _ kSafeEvict_ne_kReplicas]
    exact h
  obtain ⟨anns, hanns, hga⟩ :
      ∃ anns, (if d.ns = "kube-system" then resetSafeEvict d else (d, false)).1.annotations
          = some anns ∧ annGet? anns KubecostTurnDownReplicas = some s := by
    cases hae : (if d.ns = "kube-system" then resetSafeEvict d else (d, false)).1.annotations with
    | none => rw [hae] at h1; simp [mGet?] at h1
    | some a =>
      refine ⟨a, rfl, ?_⟩
      rw [hae] at h1
      exact h1
  rw [expandDeployment_replicas_eq, resetReplicas_some _ _ _ _ hanns hga hp]

/-! ## Flatten-side facts and round trips -/

theorem flattenStage1_replicas (d : Deployment) :
    (if d.ns = "kube-system" then setSafeEvict d else (d, false)).1.replicas
      = d.replicas := by
  split
  · exact setSafeEvict_replicas d
  · rfl

theorem flattenStage1_annotations_ne (d : Deployment) (k : String)
    (h : KubecostTurnDownSafeEvictFlag ≠ k) :
    mGet? (if d.ns = "kube-system" then setSafeEvict d else (d, false)).1.annotations k
      = mGet? d.annotations k := by
  split
  · exact setSafeEvict_annotations_ne d k h
  · rfl

/-- Replica-count round trip for deployments carrying no replica capture:
whatever FlattenDeployment produced, ExpandDeployment brings the replica
count back. -/
theorem flatten_expand_replicas (d : Deployment) (r : Int)
    (hrep : d.replicas = some r)
    (hann : mGet? d.annotations KubecostTurnDownReplicas = none)
    (hparse : goParseInt32 (toString r) = some r) :
    (flattenDeployment d).map (fun fp => (expandDeployment fp.1).1.replicas)
      = some (some r) := by
  simp only [flattenDeployment]
  generalize hev : (if d.ns = "kube-system" then setSafeEvict d else (d, false)) = ev
  have hev1 : ev.1.replicas = some r := by
    rw [← hev, flattenStage1_replicas]
    exact hrep
  have hev2 : mGet? ev.1.annotations KubecostTurnDownReplicas = none := by
    rw [← hev, flattenStage1_annotations_ne d _ kSafeEvict_ne_kReplicas]
    exact hann
  by_cases hr : r = 0
  · rw [zeroOutReplicas_zero ev.1 (by rw [hev1, hr])]
    split
    · rename_i habs
      exact Option.noConfusion habs
    · rename_i rp hrp
      obtain rfl : (ev.1, false) = rp := by
        injection hrp with h
      split
      · rw [Option.map_some']
        rw [expandDeployment_replicas_of_none d hann, hrep, hr]
      · rw [Option.map_some']
        rw [expandDeployment_replicas_of_none _ (by
              rw [zeroOutRollingUpdate_annotations_ne _ _ (Ne.symm kReplicas_ne_kRollout)]
              exact hev2),
          zeroOutRollingUpdate_replicas, hev1, hr]
  · rw [zeroOutReplicas_pos ev.1 r hev1 hr]
    split
    · rename_i habs
      exact Option.noConfusion habs
    · rename_i rp hrp
      obtain rfl : ({ ev.1 with
          replicas := some 0,
          annotations := mSet ev.1.annotations KubecostTurnDownReplicas (toString r) },
            true) = rp := by
        injection hrp with h
      split
      · rename_i hcond
        exact absurd rfl hcond.2.1
      · rw [Option.map_some']
        rw [expandDeployment_replicas_of_capture _ (toString r) r (by
              rw [zeroOutRollingUpdate_annotations_ne _ _ (Ne.symm kReplicas_ne_kRollout)]
              exact mGet?_mSet_self _ _ _)
            hparse]

/-- Eviction-annotation round trip for daemonsets whose annotation was
absent. -/
theorem daemonset_roundtrip (ds : DaemonSet)
    (h : mGet? ds.templateAnnotations ClusterAutoScalerSafeEvict = none) :
    mGet? (expandDaemonSet (flattenDaemonSet ds).1).1.templateAnnotations
      ClusterAutoScalerSafeEvict = none := by
  have hne : ¬mGet? ds.templateAnnotations ClusterAutoScalerSafeEvict = some "true" := by
    rw [h]
    simp
  simp only [flattenDaemonSet, if_neg hne]
  cases hta : ds.templateAnnotations with
  | none => simp [mSet, expandDaemonSet, mGet?, annGet?_annDel_self]
  | some t => simp [mSet, expandDaemonSet, mGet?, annGet?_annDel_self]

theorem goParseBool_goBoolString (b : Bool) : goParseBool (goBoolString b) = some b := by
  cases b <;> rfl

theorem mGet?_map_annDel_self (m : Option Ann) (k : String) :
    mGet? (m.map (fun anns => annDel anns k)) k = none := by
  cases m <;> simp [mGet?, annGet?_annDel_self]

/-- Suspend-flag round trip for cron jobs whose suspend pointer is set. -/
theorem cronjob_roundtrip_some (j : CronJob) (b : Bool) (hs : j.suspend = some b) :
    ∃ jr, resumeJob (suspendJob j).1 = some (jr, true) ∧ jr.suspend = some b ∧
      mGet? jr.annotations KubecostTurnDownJobSuspend = none := by
  simp only [suspendJob, hs]
  simp only [resumeJob, mGet?_mSet_self, goParseBool_goBoolString]
  exact ⟨_, rfl, rfl, mGet?_map_annDel_self _ _⟩

/-- A nil suspend pointer is reconstructed as an explicit false. -/
theorem cronjob_roundtrip_nil (j : CronJob) (hs : j.suspend = none)
    (hann : mGet? j.annotations KubecostTurnDownJobSuspend = none) :
    resumeJob (suspendJob j).1 = some ({ j with suspend := some false }, true) := by
  simp only [suspendJob, hs]
  simp only [resumeJob]
  simp [hann]

/-! ## Idempotence facts -/

theorem flattenDaemonSet_flattenDaemonSet (ds : DaemonSet) :
    flattenDaemonSet (flattenDaemonSet ds).1 = ((flattenDaemonSet ds).1, false) := by
  by_cases h : mGet? ds.templateAnnotations ClusterAutoScalerSafeEvict = some "true"
  · simp [flattenDaemonSet, h]
  · simp only [flattenDaemonSet, if_neg h]
    simp [mGet?_mSet_self]

theorem expandDaemonSet_expandDaemonSet (ds : DaemonSet) :
    (expandDaemonSet (expandDaemonSet ds).1).1 = (expandDaemonSet ds).1 := by
  cases hta : ds.templateAnnotations with
  | none => simp [expandDaemonSet, hta]
  | some t => simp [expandDaemonSet, hta, annDel_annDel]

theorem expandDeployment_nilAnn (d : Deployment) (h : d.annotations = none) :
    expandDeployment d = (d, false) := by
  have h1 : (if d.ns = "kube-system" then resetSafeEvict d else (d, false)) = (d, false) := by
    split
    · exact resetSafeEvict_nilAnn d h
    · rfl
  have h2 : mGet? d.annotations KubecostTurnDownReplicas = none := by
    rw [h]
    rfl
  have h3 : mGet? d.annotations KubecostTurnDownRollout = none := by
    rw [h]
    rfl
  simp only [expandDeployment, h1]
  rw [resetReplicas_none d h2, resetRollingUpdate_none d h3]
  simp

/-- An already-flat deployment outside kube-system with no rolling-update
strategy is left untouched by FlattenDeployment. -/
theorem flattenDeployment_flat (d : Deployment) (hns : ¬d.ns = "kube-system")
    (hru : d.rollingUpdate = none) (hrep : d.replicas = some 0) :
    flattenDeployment d = some (d, false) := by
  simp only [flattenDeployment, if_neg hns]
  rw [zeroOutReplicas_zero d hrep]
  simp [zeroOutRollingUpdate_none d hru]

/-- FlattenDeployment is idempotent for a deployment outside kube-system with
no rolling-update strategy. -/
theorem flattenDeployment_idem (d : Deployment) (r : Int)
    (hns : ¬d.ns = "kube-system") (hru : d.rollingUpdate = none)
    (hrep : d.replicas = some r) :
    ∀ df p, flattenDeployment d = some (df, p) → flattenDeployment df = some (df, false) := by
  intro df p hfl
  by_cases hr : r = 0
  · have hcomp : flattenDeployment d = some (d, false) :=
      flattenDeployment_flat d hns hru (by rw [hrep, hr])
    rw [hcomp] at hfl
    simp only [Option.some.injEq, Prod.mk.injEq] at hfl
    rw [← hfl.1]
    exact hcomp
  · have hz := zeroOutRollingUpdate_none
      ({ d with
          replicas := some 0,
          annotations := mSet d.annotations KubecostTurnDownReplicas (toString r) }) hru
    have hcomp : flattenDeployment d =
        some
          ({ d with
              replicas := some 0,
              annotations := mSet d.annotations KubecostTurnDownReplicas (toString r) },
            true) := by
      simp only [flattenDeployment, if_neg hns]
      rw [zeroOutReplicas_pos d r hrep hr]
      simp [hz]
    rw [hcomp] at hfl
    simp only [Option.some.injEq, Prod.mk.injEq] at hfl
    rw [← hfl.1]
    exact flattenDeployment_flat _ hns hru rfl

/-! ## Drain-loop and flattener-aggregate lemmas -/

theorem foldl_drainStep_actions (current : String) (pools : List NodePool) :
    ∀ (nodes : List Node) (acc : String × List TdAction) (a : TdAction),
      a ∈ (nodes.foldl (drainStep current pools) acc).2 →
      a ∈ acc.2 ∨ ∃ x, a = TdAction.drain x := by
  intro nodes
  induction nodes with
  | nil =>
    intro acc a h
    exact Or.inl h
  | cons n ns ih =>
    intro acc a h
    rw [List.foldl_cons] at h
    rcases ih _ a h with h1 | h1
    · simp only [drainStep] at h1
      split at h1
      · exact Or.inl h1
      · split at h1
        · exact Or.inl h1
        · split at h1
          · exact Or.inl h1
          · rcases List.mem_append.mp h1 with h2 | h2
            · exact Or.inl h2
            · simp only [List.mem_singleton] at h2
              exact Or.inr ⟨n.name, h2⟩
    · exact Or.inr h1

theorem foldl_drainStep_mem (current : String) (pools : List NodePool) :
    ∀ (nodes : List Node) (acc : String × List TdAction) (x : String),
      TdAction.drain x ∈ (nodes.foldl (drainStep current pools) acc).2 →
      TdAction.drain x ∈ acc.2 ∨
        ∃ n, n ∈ nodes ∧ n.name = x ∧ ¬x = current ∧
          ∃ q, lookupPool pools n.poolID = some q ∧ q.autoScaling = false := by
  intro nodes
  induction nodes with
  | nil =>
    intro acc x h
    exact Or.inl h
  | cons n ns ih =>
    intro acc x h
    rw [List.foldl_cons] at h
    rcases ih _ x h with h1 | h1
    · simp only [drainStep] at h1
      split at h1
      · exact Or.inl h1
      · rename_i hcur
        split at h1
        · exact Or.inl h1
        · rename_i q hq
          split at h1
          · exact Or.inl h1
          · rename_i hauto
            rcases List.mem_append.mp h1 with h2 | h2
            · exact Or.inl h2
            · simp only [List.mem_singleton, TdAction.drain.injEq] at h2
              refine Or.inr ⟨n, List.mem_cons_self _ _, h2.symm, ?_, q, hq, ?_⟩
              · rw [h2]
                exact hcur
              · simpa using hauto
    · obtain ⟨m, hm, rest⟩ := h1
      exact Or.inr ⟨m, List.mem_cons_of_mem _ hm, rest⟩

theorem foldl_drainStep_fst_of_absent (current : String) (pools : List NodePool) :
    ∀ (nodes : List Node) (acc : String × List TdAction),
      (∀ n ∈ nodes, ¬n.name = current) →
      (nodes.foldl (drainStep current pools) acc).1 = acc.1 := by
  intro nodes
  induction nodes with
  | nil =>
    intro acc _
    rfl
  | cons n ns ih =>
    intro acc h
    rw [List.foldl_cons, ih _ (fun m hm => h m (List.mem_cons_of_mem _ hm))]
    simp only [drainStep]
    rw [if_neg (h n (List.mem_cons_self _ _))]
    split
    · rfl
    · split
      · rfl
      · rfl

theorem foldl_drainStep_fst_anchor (current : String) (pools : List NodePool)
    (l1 l2 : List Node) (anchor : Node) (acc : String × List TdAction)
    (hname : anchor.name = current)
    (habsent : ∀ n ∈ l2, ¬n.name = current) :
    ((l1 ++ anchor :: l2).foldl (drainStep current pools) acc).1 = anchor.poolID := by
  rw [List.foldl_append, List.foldl_cons,
    foldl_drainStep_fst_of_absent current pools l2 _ habsent]
  simp [drainStep, hname]

theorem drainLoop_fst (current : String) (pools : List NodePool) (nodes : List Node)
    (anchor : Node) (hmem : anchor ∈ nodes) (hname : anchor.name = current)
    (hnodup : (nodes.map Node.name).Nodup) :
    (drainLoop current pools nodes).1 = anchor.poolID := by
  obtain ⟨l1, l2, rfl⟩ := List.append_of_mem hmem
  have habsent : ∀ n ∈ l2, ¬n.name = current := by
    intro n hn heq
    rw [List.map_append, List.map_cons] at hnodup
    have h2 := (List.nodup_append.mp hnodup).2.1
    have h3 := (List.nodup_cons.mp h2).1
    refine h3 ?_
    rw [hname, ← heq]
    exact List.mem_map_of_mem Node.name hn
  exact foldl_drainStep_fst_anchor current pools l1 l2 anchor _ hname habsent

theorem flattenerFlatten_ok (c : Cluster) (h1 : c.listDeploymentsOk = true)
    (h2 : c.listDaemonSetsOk = true) (h3 : c.listCronJobsOk = true) :
    flattenerFlatten c =
      ([.flattenDeployments, .flattenDaemonSets, .suspendJobs], none) := by
  simp [flattenerFlatten, h1, h2, h3]

theorem flattenerSuspendJobs_ok (c : Cluster) (h3 : c.listCronJobsOk = true) :
    flattenerSuspendJobs c = ([.suspendJobs], none) := by
  simp [flattenerSuspendJobs, h3]

theorem flattenerFlatten_actions (c : Cluster) (a : TdAction)
    (h : a ∈ (flattenerFlatten c).1) :
    a = .flattenDeployments ∨ a = .flattenDaemonSets ∨ a = .suspendJobs := by
  simp only [flattenerFlatten] at h
  split at h
  · simp only [List.mem_singleton] at h
    exact Or.inl h
  · split at h
    · simp only [List.mem_cons, List.not_mem_nil, or_false] at h
      rcases h with h | h
      · exact Or.inl h
      · exact Or.inr (Or.inl h)
    · simp only [List.mem_cons, List.not_mem_nil, or_false] at h
      rcases h with h | h | h
      · exact Or.inl h
      · exact Or.inr (Or.inl h)
      · exact Or.inr (Or.inr h)

theorem flattenerSuspendJobs_actions (c : Cluster) (a : TdAction)
    (h : a ∈ (flattenerSuspendJobs c).1) : a = .suspendJobs := by
  simp only [flattenerSuspendJobs, List.mem_singleton] at h
  exact h

/-- With all listing calls succeeding, `ScaleDownCluster` reaches the record
and resize steps, and its outcome has this exact shape. -/
theorem scaleDownCluster_shape (c : Cluster) (s : ManagerState)
    (nodes : List Node) (pools : List NodePool)
    (hn : c.nodes = some nodes) (hp : c.nodePools = some pools)
    (h1 : c.listDeploymentsOk = true) (h2 : c.listDaemonSetsOk = true)
    (h3 : c.listCronJobsOk = true) :
    scaleDownCluster c s =
      ({ s with
          nodePools := some (pools.filter (fun np =>
            !(np.name == (drainLoop s.currentNode pools nodes).1 || np.autoScaling))),
          autoScaling := some (pools.any (fun np => np.autoScaling)) },
        (if pools.any (fun np => np.autoScaling) then
            [TdAction.flattenDeployments, TdAction.flattenDaemonSets, TdAction.suspendJobs]
          else [TdAction.suspendJobs])
          ++ (drainLoop s.currentNode pools nodes).2
          ++ [TdAction.setNodePoolSizes
              ((pools.filter (fun np =>
                !(np.name == (drainLoop s.currentNode pools nodes).1 || np.autoScaling))).map
                (fun np => np.name)) 0],
        if c.setNodePoolSizesOk then none else some TdError.setNodePoolSizesFailed) := by
  cases hauto : pools.any (fun np => np.autoScaling) with
  | true =>
    cases hset : c.setNodePoolSizesOk with
    | true => simp [scaleDownCluster, hn, hp, hauto, hset, flattenerFlatten_ok c h1 h2 h3]
    | false => simp [scaleDownCluster, hn, hp, hauto, hset, flattenerFlatten_ok c h1 h2 h3]
  | false =>
    cases hset : c.setNodePoolSizesOk with
    | true => simp [scaleDownCluster, hn, hp, hauto, hset, flattenerSuspendJobs_ok c h3]
    | false => simp [scaleDownCluster, hn, hp, hauto, hset, flattenerSuspendJobs_ok c h3]

/-- When the in-memory record is non-empty, `ScaleUpCluster` skips
reconstruction and its first collaborator call is the Provider reset of the
recorded pools. -/
theorem scaleUpReload_nonempty (c : Cluster) (st : ManagerState)
    (q : NodePool) (l : List NodePool) (hst : st.nodePools = some (q :: l)) :
    scaleUpReload c st = (st, none) := by
  simp [scaleUpReload, hst]

theorem scaleUpCluster_head (c2 : Cluster) (st : ManagerState)
    (q : NodePool) (l : List NodePool) (hst : st.nodePools = some (q :: l)) :
    (scaleUpCluster c2 st).2.1.head?
      = some (.resetNodePoolSizes ((q :: l).map (fun np => np.name))) := by
  simp only [scaleUpCluster, scaleUpReload_nonempty c2 st q l hst, hst]
  split
  · simp
  · split
    · simp
    · simp

/-! ## Claim theorems -/

/-- C1, counterexample: flatten-then-expand is not a no-op on flattenable
fields even without prior capture annotations.  (a) A kube-system deployment
with a nil annotation map and nothing else to capture keeps the eviction
marker "true" after expand (it was absent before flatten); (b) a deployment
whose rolling-update max-unavailable is 5 comes back with max-unavailable 1
(the capture stores the post-mutation value); (c) a daemonset whose eviction
marker was pre-set to "false" ends with the marker deleted. -/
theorem claim1_roundtrip_counterexample :
    (flattenDeployment claim1DeployA).map
        (fun fp => mGet? (expandDeployment fp.1).1.templateAnnotations
          ClusterAutoScalerSafeEvict)
      = some (some "true") ∧
    mGet? claim1DeployA.templateAnnotations ClusterAutoScalerSafeEvict = none ∧
    (flattenDeployment claim1DeployB).map (fun fp => (expandDeployment fp.1).1.rollingUpdate)
      = some (some (some (.int 1))) ∧
    claim1DeployB.rollingUpdate = some (some (.int 5)) ∧
    mGet? (expandDaemonSet (flattenDaemonSet claim1DaemonSet).1).1.templateAnnotations
        ClusterAutoScalerSafeEvict = none ∧
    mGet? claim1DaemonSet.templateAnnotations ClusterAutoScalerSafeEvict = some "false" := by
  refine ⟨rfl, rfl, rfl, rfl, rfl, rfl⟩

/-- C1, amended: for workloads with no prior capture annotations, the round
trip restores the replica count of any deployment whose replica pointer is
set, leaves a daemonset's eviction marker absent when it was absent, and
restores a cron job's suspend flag when its pointer was set (a nil suspend
pointer is reconstructed as an explicit false).  The eviction marker in other
states and the rolling-update max-unavailable are not restored in general. -/
theorem claim1_roundtrip_amended
    (d : Deployment) (r : Int) (ds : DaemonSet) (j jn : CronJob) (b : Bool)
    (hrep : d.replicas = some r)
    (hann : mGet? d.annotations KubecostTurnDownReplicas = none)
    (hparse : goParseInt32 (toString r) = some r)
    (hds : mGet? ds.templateAnnotations ClusterAutoScalerSafeEvict = none)
    (hjs : j.suspend = some b)
    (hjn : jn.suspend = none)
    (hjnann : mGet? jn.annotations KubecostTurnDownJobSuspend = none) :
    (flattenDeployment d).map (fun fp => (expandDeployment fp.1).1.replicas)
      = some (some r) ∧
    mGet? (expandDaemonSet (flattenDaemonSet ds).1).1.templateAnnotations
      ClusterAutoScalerSafeEvict = none ∧
    (∃ jr, resumeJob (suspendJob j).1 = some (jr, true) ∧ jr.suspend = some b ∧
      mGet? jr.annotations KubecostTurnDownJobSuspend = none) ∧
    resumeJob (suspendJob jn).1 = some ({ jn with suspend := some false }, true) :=
  ⟨flatten_expand_replicas d r hrep hann hparse, daemonset_roundtrip ds hds,
    cronjob_roundtrip_some j b hjs, cronjob_roundtrip_nil jn hjn hjnann⟩

/-- Witness for the amended C1 at concrete workloads. -/
theorem claim1_roundtrip_amended_witness :
    (flattenDeployment claim1WDeploy).map (fun fp => (expandDeployment fp.1).1.replicas)
      = some (some 3) ∧
    mGet? (expandDaemonSet (flattenDaemonSet claim1WDaemonSet).1).1.templateAnnotations
      ClusterAutoScalerSafeEvict = none ∧
    (∃ jr, resumeJob (suspendJob claim1WJob).1 = some (jr, true) ∧
      jr.suspend = some false ∧
      mGet? jr.annotations KubecostTurnDownJobSuspend = none) ∧
    resumeJob (suspendJob claim1WJobNil).1
      = some ({ claim1WJobNil with suspend := some false }, true) :=
  claim1_roundtrip_amended claim1WDeploy 3 claim1WDaemonSet claim1WJob claim1WJobNil false
    rfl rfl (by decide) rfl rfl rfl rfl

/-- C2, code bug: `zeroOutRollingUpdate` reads the capture value through the
aliased `maxUnavailable` pointer after mutating the pointee, so for a prior
max-unavailable of 5 the capture annotation receives "1" (the post-mutation
value), not "5". -/
theorem claim2_capture_holds_post_mutation_value :
    zeroOutRollingUpdate claim2Deploy =
      ({ claim2Deploy with
          annotations := some [(KubecostTurnDownRollout, "1")],
          rollingUpdate := some (some (.int 1)) }, true) ∧
    iosString (.int 5) = "5" ∧
    mGet? (zeroOutRollingUpdate claim2Deploy).1.annotations KubecostTurnDownRollout
      = some "1" := by
  refine ⟨rfl, rfl, rfl⟩

/-- C3, counterexample: re-running SuspendJob on an already-suspended job
overwrites the capture annotation "false" with "true" and issues a patch, and
re-running FlattenDeployment on an already-flattened kube-system deployment
adds a capture annotation and issues a patch: flatten∘flatten ≠ flatten. -/
theorem claim3_idempotence_counterexample :
    (suspendJob (suspendJob claim3Job).1).1 ≠ (suspendJob claim3Job).1 ∧
    mGet? ((suspendJob claim3Job).1).annotations KubecostTurnDownJobSuspend
      = some "false" ∧
    mGet? ((suspendJob (suspendJob claim3Job).1).1).annotations KubecostTurnDownJobSuspend
      = some "true" ∧
    flattenDeployment claim3Deploy = some (claim3Flat1, true) ∧
    flattenDeployment claim3Flat1 = some (claim3Flat2, true) ∧
    claim3Flat2 ≠ claim3Flat1 := by
  refine ⟨by decide, rfl, rfl, rfl, rfl, by decide⟩

/-- C3, amended: the idempotence guards hold exactly where they exist —
FlattenDaemonSet re-run is a guarded no-op with no patch; ExpandDaemonSet
re-run leaves the state fixed (though it still issues an empty patch);
FlattenDeployment re-run is a no-op with no patch outside kube-system when no
rolling-update strategy is present; ExpandDeployment is a no-op on a nil
annotation map.  SuspendJob/ResumeJob and the kube-system/rolling-update
deployment paths are not idempotent. -/
theorem claim3_idempotence_amended
    (ds es : DaemonSet) (d df d2 : Deployment) (r : Int) (p : Bool)
    (hns : ¬d.ns = "kube-system") (hru : d.rollingUpdate = none)
    (hrep : d.replicas = some r)
    (hfl : flattenDeployment d = some (df, p))
    (hann : d2.annotations = none) :
    flattenDaemonSet (flattenDaemonSet ds).1 = ((flattenDaemonSet ds).1, false) ∧
    (expandDaemonSet (expandDaemonSet es).1).1 = (expandDaemonSet es).1 ∧
    flattenDeployment df = some (df, false) ∧
    expandDeployment d2 = (d2, false) :=
  ⟨flattenDaemonSet_flattenDaemonSet ds, expandDaemonSet_expandDaemonSet es,
    flattenDeployment_idem d r hns hru hrep df p hfl, expandDeployment_nilAnn d2 hann⟩

/-- Witness for the amended C3 at concrete workloads. -/
theorem claim3_idempotence_amended_witness :
    flattenDaemonSet (flattenDaemonSet claim3WDaemonSet).1
      = ((flattenDaemonSet claim3WDaemonSet).1, false) ∧
    (expandDaemonSet (expandDaemonSet claim3WDaemonSet).1).1
      = (expandDaemonSet claim3WDaemonSet).1 ∧
    flattenDeployment claim3WFlat = some (claim3WFlat, false) ∧
    expandDeployment claim3WNilAnnDeploy = (claim3WNilAnnDeploy, false) :=
  claim3_idempotence_amended claim3WDaemonSet claim3WDaemonSet claim3WDeploy claim3WFlat
    claim3WNilAnnDeploy 2 true (by decide) rfl rfl rfl rfl

/-- C5, code bug: `KubecostFlattenerOmit` lists "kube-dns", yet the flattener
has no deny-list filtering (its constructor does not even take the list the
manager passes), so FlattenDeployments flattens a deployment named
"kube-dns": replicas 2 are zeroed and a patch is issued. -/
theorem claim5_denylist_not_enforced :
    claim5Deploy.name ∈ KubecostFlattenerOmit ∧
    flattenDeployment claim5Deploy = some (claim5Flattened, true) ∧
    flattenDeployments [claim5Deploy] = some [(claim5Flattened, true)] ∧
    claim5Flattened.replicas = some 0 ∧
    claim5Deploy.replicas = some 2 := by
  refine ⟨by decide, rfl, rfl, rfl, rfl⟩

/-- C9: FlattenDeployment panics exactly on a nil replica pointer — the
zero-replica guard in `zeroOutReplicas` dereferences `*Spec.Replicas`
unconditionally, so flattening is well-defined iff replicas is non-nil. -/
theorem claim9_flatten_requires_nonnil_replicas (d : Deployment) :
    flattenDeployment d = none ↔ d.replicas = none := by
  simp only [flattenDeployment]
  generalize hev : (if d.ns = "kube-system" then setSafeEvict d else (d, false)) = ev
  have h : ev.1.replicas = d.replicas := by
    rw [← hev]
    exact flattenStage1_replicas d
  cases hr : ev.1.replicas with
  | none =>
    rw [show zeroOutReplicas ev.1 = none by simp [zeroOutReplicas, hr]]
    have hd : d.replicas = none := by
      rw [← h, hr]
    simp [hd]
  | some r =>
    have hz : ∃ v, zeroOutReplicas ev.1 = some v := by
      by_cases h0 : r = 0
      · exact ⟨_, zeroOutReplicas_zero ev.1 (by rw [hr, h0])⟩
      · exact ⟨_, zeroOutReplicas_pos ev.1 r hr h0⟩
    obtain ⟨v, hv⟩ := hz
    rw [hv]
    constructor
    · intro hcontra
      split at hcontra
      · rename_i habs
        exact Option.noConfusion habs
      · split at hcontra <;> exact Option.noConfusion hcontra
    · intro hcontra
      rw [← h, hr] at hcontra
      exact Option.noConfusion hcontra

/-- C4, code bug: `IsScaledDown` returns `nodePools == nil || len == 0`, i.e.
true iff the record is EMPTY.  After a successful ScaleDownCluster on a
cluster with a fixed pool besides the anchor's, the record is non-empty and
IsScaledDown reports false; on the fresh (never scaled down) state it
reports true — inverted from the claim and the method's own meaning. -/
theorem claim4_isScaledDown_inverted :
    (scaleDownCluster claim4Cluster claim4State).2.2 = none ∧
    (scaleDownCluster claim4Cluster claim4State).1.nodePools
      = some [{ name := "pool-b", autoScaling := false }] ∧
    IsScaledDown (scaleDownCluster claim4Cluster claim4State).1 = false ∧
    IsScaledDown claim4State = true := by
  refine ⟨rfl, rfl, rfl, rfl⟩

/-- C6: ScaleDownCluster records `isAutoScalingCluster = pools.any autoScaling`
and, when it holds, runs the full Flatten (deployments, daemonsets, jobs);
otherwise it runs only SuspendJobs, with no deployment or daemonset
flattening. -/
theorem claim6_autoscaling_classification (c : Cluster) (s : ManagerState)
    (nodes : List Node) (pools : List NodePool)
    (hn : c.nodes = some nodes) (hp : c.nodePools = some pools)
    (h1 : c.listDeploymentsOk = true) (h2 : c.listDaemonSetsOk = true)
    (h3 : c.listCronJobsOk = true) :
    (scaleDownCluster c s).1.autoScaling
      = some (pools.any (fun np => np.autoScaling)) ∧
    (pools.any (fun np => np.autoScaling) = true →
      TdAction.flattenDeployments ∈ (scaleDownCluster c s).2.1 ∧
      TdAction.flattenDaemonSets ∈ (scaleDownCluster c s).2.1 ∧
      TdAction.suspendJobs ∈ (scaleDownCluster c s).2.1) ∧
    (pools.any (fun np => np.autoScaling) = false →
      TdAction.suspendJobs ∈ (scaleDownCluster c s).2.1 ∧
      TdAction.flattenDeployments ∉ (scaleDownCluster c s).2.1 ∧
      TdAction.flattenDaemonSets ∉ (scaleDownCluster c s).2.1) := by
  have hdl : ∀ a, a ∈ (drainLoop s.currentNode pools nodes).2 →
      ∃ x, a = TdAction.drain x := by
    intro a ha
    rcases foldl_drainStep_actions s.currentNode pools nodes ("", []) a ha with h | h
    · exact absurd h (List.not_mem_nil a)
    · exact h
  rw [scaleDownCluster_shape c s nodes pools hn hp h1 h2 h3]
  refine ⟨rfl, ?_, ?_⟩
  · intro hauto
    rw [hauto]
    simp
  · intro hauto
    rw [hauto]
    refine ⟨by simp, ?_, ?_⟩
    · intro hmem
      rcases List.mem_append.mp hmem with hmem1 | hmem2
      · rcases List.mem_append.mp hmem1 with ha | hb
        · simp at ha
        · obtain ⟨x, hx⟩ := hdl _ hb
          exact TdAction.noConfusion hx
      · simp at hmem2
    · intro hmem
      rcases List.mem_append.mp hmem with hmem1 | hmem2
      · rcases List.mem_append.mp hmem1 with ha | hb
        · simp at ha
        · obtain ⟨x, hx⟩ := hdl _ hb
          exact TdAction.noConfusion hx
      · simp at hmem2

/-- Witness for C6 at a concrete autoscaling cluster. -/
theorem claim6_autoscaling_classification_witness :
    TdAction.flattenDeployments ∈ (scaleDownCluster claim6WCluster claim6WState).2.1 ∧
    TdAction.flattenDaemonSets ∈ (scaleDownCluster claim6WCluster claim6WState).2.1 ∧
    TdAction.suspendJobs ∈ (scaleDownCluster claim6WCluster claim6WState).2.1 ∧
    (scaleDownCluster claim6WCluster claim6WState).1.autoScaling = some true := by
  have h := claim6_autoscaling_classification claim6WCluster claim6WState _ _
    rfl rfl rfl rfl rfl
  obtain ⟨hfd, hfds, hsj⟩ := h.2.1 rfl
  exact ⟨hfd, hfds, hsj, h.1⟩

/-- C7: when the in-memory record is empty, ScaleUpCluster reconstructs it
from the Provider's fixed-size pools; if that set is empty it returns the
"Failed to locate any node pools to scale up." error having issued no
Provider reset and no Expand/ResumeJobs call, and if non-empty it proceeds
straight to the Provider reset of those pools. -/
theorem claim7_scaleUp_reconstruction (c : Cluster) (s : ManagerState)
    (pools : List NodePool)
    (hempty : s.nodePools.getD [] = [])
    (hp : c.nodePools = some pools) :
    (pools.filter (fun p => !p.autoScaling) = [] →
      scaleUpCluster c s = ((loadNodePools c s).1, [], some .noNodePoolsToScaleUp)) ∧
    (∀ q l, pools.filter (fun p => !p.autoScaling) = q :: l →
      (scaleUpCluster c s).2.1.head?
        = some (.resetNodePoolSizes ((q :: l).map (fun np => np.name)))) := by
  have hld2 : (loadNodePools c s).2 = none := by
    simp [loadNodePools, hp]
  have hld1 : (loadNodePools c s).1.nodePools =
      (if (pools.filter (fun p => !p.autoScaling)).isEmpty then none
        else some (pools.filter (fun p => !p.autoScaling))) := by
    simp [loadNodePools, hp]
  constructor
  · intro hfix
    rcases hld : loadNodePools c s with ⟨sL, eL⟩
    rw [hld] at hld1 hld2
    simp only at hld1 hld2
    subst hld2
    rw [hfix] at hld1
    simp only [List.isEmpty_nil, if_pos] at hld1
    have hreload : scaleUpReload c s = (sL, some .noNodePoolsToScaleUp) := by
      simp [scaleUpReload, hempty, hld, hld1]
    simp [scaleUpCluster, hreload, hld]
  · intro q l hfix
    rcases hld : loadNodePools c s with ⟨sL, eL⟩
    rw [hld] at hld1 hld2
    simp only at hld1 hld2
    subst hld2
    rw [hfix] at hld1
    simp only [List.isEmpty_cons, if_neg] at hld1
    have hreload : scaleUpReload c s = (sL, none) := by
      simp [scaleUpReload, hempty, hld, hld1]
    simp only [scaleUpCluster, hreload, hld1]
    split
    · simp
    · split
      · simp
      · simp

/-- Witness for C7 at a cluster whose only pool autoscales. -/
theorem claim7_scaleUp_reconstruction_witness :
    scaleUpCluster claim7WCluster claim7WState
      = ((loadNodePools claim7WCluster claim7WState).1, [],
          some .noNodePoolsToScaleUp) :=
  (claim7_scaleUp_reconstruction claim7WCluster claim7WState _ rfl rfl).1 rfl

/-- C8: during ScaleDownCluster, Drain is never called on the anchor node nor
on a node of an autoscaling pool, and the anchor node's pool is never in the
pool set resized to zero. -/
theorem claim8_drain_protections (c : Cluster) (s : ManagerState)
    (nodes : List Node) (pools : List NodePool) (anchor : Node)
    (hn : c.nodes = some nodes) (hp : c.nodePools = some pools)
    (hmem : anchor ∈ nodes) (hname : anchor.name = s.currentNode)
    (hnodup : (nodes.map Node.name).Nodup) :
    (∀ x, TdAction.drain x ∈ (scaleDownCluster c s).2.1 → ¬x = s.currentNode) ∧
    (∀ n, n ∈ nodes → ∀ q, lookupPool pools n.poolID = some q →
      q.autoScaling = true → TdAction.drain n.name ∉ (scaleDownCluster c s).2.1) ∧
    (∀ ps sz, TdAction.setNodePoolSizes ps sz ∈ (scaleDownCluster c s).2.1 →
      ¬anchor.poolID ∈ ps) := by
  have hdrmem : ∀ x, TdAction.drain x ∈ (drainLoop s.currentNode pools nodes).2 →
      ∃ n, n ∈ nodes ∧ n.name = x ∧ ¬x = s.currentNode ∧
        ∃ q, lookupPool pools n.poolID = some q ∧ q.autoScaling = false := by
    intro x hx
    rcases foldl_drainStep_mem s.currentNode pools nodes ("", []) x hx with h | h
    · exact absurd h (List.not_mem_nil _)
    · exact h
  have hfst : (drainLoop s.currentNode pools nodes).1 = anchor.poolID :=
    drainLoop_fst s.currentNode pools nodes anchor hmem hname hnodup
  have hwl : ∀ a, a ∈ (if pools.any (fun np => np.autoScaling) = true
        then flattenerFlatten c else flattenerSuspendJobs c).1 →
      a = .flattenDeployments ∨ a = .flattenDaemonSets ∨ a = .suspendJobs := by
    intro a ha
    split at ha
    · exact flattenerFlatten_actions c a ha
    · exact Or.inr (Or.inr (flattenerSuspendJobs_actions c a ha))
  simp only [scaleDownCluster, hn, hp]
  split
  · rename_i e heq
    refine ⟨?_, ?_, ?_⟩
    · intro x hx
      rcases hwl _ hx with h | h | h <;> exact TdAction.noConfusion h
    · intro n _ q _ _ hx
      rcases hwl _ hx with h | h | h <;> exact TdAction.noConfusion h
    · intro ps sz hx
      rcases hwl _ hx with h | h | h <;> exact TdAction.noConfusion h
  · rename_i heq
    have hmain : ∀ a, a ∈ (if pools.any (fun np => np.autoScaling) = true
          then flattenerFlatten c else flattenerSuspendJobs c).1
            ++ (drainLoop s.currentNode pools nodes).2
            ++ [TdAction.setNodePoolSizes
              ((pools.filter (fun np =>
                !(np.name == (drainLoop s.currentNode pools nodes).1 || np.autoScaling))).map
                (fun np => np.name)) 0] →
        (a = .flattenDeployments ∨ a = .flattenDaemonSets ∨ a = .suspendJobs) ∨
        a ∈ (drainLoop s.currentNode pools nodes).2 ∨
        a = TdAction.setNodePoolSizes
          ((pools.filter (fun np =>
            !(np.name == (drainLoop s.currentNode pools nodes).1 || np.autoScaling))).map
            (fun np => np.name)) 0 := by
      intro a ha
      rcases List.mem_append.mp ha with h1 | h2
      · rcases List.mem_append.mp h1 with ha1 | ha2
        · exact Or.inl (hwl a ha1)
        · exact Or.inr (Or.inl ha2)
      · simp only [List.mem_singleton] at h2
        exact Or.inr (Or.inr h2)
    have goal1 : ∀ x, TdAction.drain x ∈ (drainLoop s.currentNode pools nodes).2 →
        ¬x = s.currentNode := by
      intro x hx
      obtain ⟨n, _, _, hxc, _⟩ := hdrmem x hx
      exact hxc
    have goal2 : ∀ n, n ∈ nodes → ∀ q, lookupPool pools n.poolID = some q →
        q.autoScaling = true →
        TdAction.drain n.name ∉ (drainLoop s.currentNode pools nodes).2 := by
      intro n hnmem q hq hqa hx
      obtain ⟨m, hmmem, hmx, _, q2, hq2, hq2a⟩ := hdrmem n.name hx
      have hmn : m = n :=
        List.inj_on_of_nodup_map hnodup hmmem hnmem hmx
      rw [hmn, hq] at hq2
      rw [(Option.some.injEq _ _).mp hq2] at hqa
      rw [hqa] at hq2a
      exact Bool.noConfusion hq2a
    have goal3 : ¬anchor.poolID ∈
        (pools.filter (fun np =>
          !(np.name == (drainLoop s.currentNode pools nodes).1 || np.autoScaling))).map
          (fun np => np.name) := by
      intro hin
      obtain ⟨np, hnp, hnpn⟩ := List.mem_map.mp hin
      obtain ⟨_, hpred⟩ := List.mem_filter.mp hnp
      rw [hfst] at hpred
      simp only [Bool.not_eq_eq_eq_not, Bool.not_true, Bool.or_eq_false_iff] at hpred
      rw [hnpn] at hpred
      simp at hpred
    split
    · refine ⟨?_, ?_, ?_⟩
      · intro x hx
        rcases hmain _ hx with h | h | h
        · rcases h with h | h | h <;> exact TdAction.noConfusion h
        · exact goal1 x h
        · exact TdAction.noConfusion h
      · intro n hnmem q hq hqa hx
        rcases hmain _ hx with h | h | h
        · rcases h with h | h | h <;> exact TdAction.noConfusion h
        · exact goal2 n hnmem q hq hqa h
        · exact TdAction.noConfusion h
      · intro ps sz hx
        rcases hmain _ hx with h | h | h
        · rcases h with h | h | h <;> exact TdAction.noConfusion h
        · obtain ⟨x, hxd⟩ := (by
            rcases foldl_drainStep_actions s.currentNode pools nodes ("", [])
              (TdAction.setNodePoolSizes ps sz) h with hh | hh
            · exact absurd hh (List.not_mem_nil _)
            · exact hh : ∃ x, TdAction.setNodePoolSizes ps sz = TdAction.drain x)
          exact TdAction.noConfusion hxd
        · obtain ⟨hps, _⟩ := TdAction.setNodePoolSizes.inj h
          rw [hps]
          exact goal3
    · refine ⟨?_, ?_, ?_⟩
      · intro x hx
        rcases hmain _ hx with h | h | h
        · rcases h with h | h | h <;> exact TdAction.noConfusion h
        · exact goal1 x h
        · exact TdAction.noConfusion h
      · intro n hnmem q hq hqa hx
        rcases hmain _ hx with h | h | h
        · rcases h with h | h | h <;> exact TdAction.noConfusion h
        · exact goal2 n hnmem q hq hqa h
        · exact TdAction.noConfusion h
      · intro ps sz hx
        rcases hmain _ hx with h | h | h
        · rcases h with h | h | h <;> exact TdAction.noConfusion h
        · obtain ⟨x, hxd⟩ := (by
            rcases foldl_drainStep_actions s.currentNode pools nodes ("", [])
              (TdAction.setNodePoolSizes ps sz) h with hh | hh
            · exact absurd hh (List.not_mem_nil _)
            · exact hh : ∃ x, TdAction.setNodePoolSizes ps sz = TdAction.drain x)
          exact TdAction.noConfusion hxd
        · obtain ⟨hps, _⟩ := TdAction.setNodePoolSizes.inj h
          rw [hps]
          exact goal3

/-- Witness for C8: the anchor node and the autoscaling pool's node are not
drained in the concrete scenario. -/
theorem claim8_drain_protections_witness :
    TdAction.drain "anchor" ∉ (scaleDownCluster claim8WCluster claim8WState).2.1 ∧
    TdAction.drain "n3" ∉ (scaleDownCluster claim8WCluster claim8WState).2.1 := by
  constructor
  · intro h
    exact (claim8_drain_protections claim8WCluster claim8WState _ _
        { name := "anchor", poolID := "pool-a" } rfl rfl (by decide) rfl
        (by decide)).1 "anchor" h rfl
  · exact (claim8_drain_protections claim8WCluster claim8WState _ _
      { name := "anchor", poolID := "pool-a" } rfl rfl (by decide) rfl
      (by decide)).2.1 { name := "n3", poolID := "pool-c" } (by decide)
      { name := "pool-c", autoScaling := true } (by decide) rfl

/-- C10: ScaleDownCluster stores the target pools and the autoscaling flag
before calling SetNodePoolSizes, so a resize failure returns the error with
the record still populated, and a subsequent ScaleUpCluster starts from that
record (its first call is the Provider reset of exactly those pools, with no
re-listing). -/
theorem claim10_record_survives_resize_failure (c c2 : Cluster) (s : ManagerState)
    (nodes : List Node) (pools : List NodePool)
    (hn : c.nodes = some nodes) (hp : c.nodePools = some pools)
    (h1 : c.listDeploymentsOk = true) (h2 : c.listDaemonSetsOk = true)
    (h3 : c.listCronJobsOk = true) (hset : c.setNodePoolSizesOk = false) :
    (scaleDownCluster c s).2.2 = some .setNodePoolSizesFailed ∧
    (scaleDownCluster c s).1.nodePools
      = some (pools.filter (fun np =>
          !(np.name == (drainLoop s.currentNode pools nodes).1 || np.autoScaling))) ∧
    (scaleDownCluster c s).1.autoScaling
      = some (pools.any (fun np => np.autoScaling)) ∧
    (∀ q l, (scaleDownCluster c s).1.nodePools = some (q :: l) →
      (scaleUpCluster c2 (scaleDownCluster c s).1).2.1.head?
        = some (.resetNodePoolSizes ((q :: l).map (fun np => np.name)))) := by
  rw [scaleDownCluster_shape c s nodes pools hn hp h1 h2 h3]
  refine ⟨by rw [hset]; rfl, rfl, rfl, ?_⟩
  intro q l hrec
  exact scaleUpCluster_head c2 _ q l hrec

/-- Witness for C10 at a concrete cluster whose resize call fails. -/
theorem claim10_record_survives_resize_failure_witness :
    (scaleDownCluster claim10WCluster claim10WState).2.2
      = some .setNodePoolSizesFailed ∧
    (scaleUpCluster claim10WCluster
        (scaleDownCluster claim10WCluster claim10WState).1).2.1.head?
      = some (.resetNodePoolSizes ["pool-b"]) := by
  have h := claim10_record_survives_resize_failure claim10WCluster claim10WCluster
    claim10WState _ _ rfl rfl rfl rfl rfl rfl
  exact ⟨h.1, h.2.2.2 { name := "pool-b", autoScaling := false } [] (by decide)⟩

end ClusterTurndown
